import Mathlib

/-!
Shallow embedding of the 2D canvas rendering-state and paint-resolution core
(src/ctx.rs, src/sk.rs of the repository).

Conventions of the embedding:
* u8 machine integers become Nat; the one u8 multiplication in the source
  (the shadow-alpha composition) is embedded with the wrapping semantics of a
  Rust release build, written explicitly as reduction mod 256.
* f32/f64 scalars (alphas, blur, offsets, dash entries, matrix entries) are
  embedded as exact rationals.  Every comparison the embedded claims rely on
  (equality with 0, range checks against 0 and 1) is exact for the values
  involved, and the rounding operations of the source (f32 round, float-to-u8
  casts) are written out explicitly below.
* Fallible operations return Except or pair their result with an optional
  error; external backend constructors that can fail (dash effect, blur mask,
  gradient shader) are driven by boolean capability flags in an environment
  record, mirroring the Option/Result surface they have in the source.
-/

/-- An RGBA color with 0-255 integer components (cssparser RGBA, u8 fields). -/
structure RGBA where
  red : Nat
  green : Nat
  blue : Nat
  alpha : Nat
deriving DecidableEq, Repr

/-- Errors surfaced by the context, following the source taxonomy:
Generic mirrors SkError::Generic (backend resource failures), InvalidArg
mirrors napi errors with Status::InvalidArg (validation failures). -/
inductive CanvasError where
  | Generic (msg : String)
  | InvalidArg (msg : String)
deriving DecidableEq, Repr

/-- Paint draw style (sk.rs PaintStyle). -/
inductive PaintStyle where
  | Fill
  | Stroke
deriving DecidableEq, Repr

/-- Path fill rule (sk.rs FillType). -/
inductive FillType where
  | Winding
  | EvenOdd
deriving DecidableEq, Repr

/-- Stroke cap (sk.rs StrokeCap). -/
inductive StrokeCap where
  | Butt
  | Round
  | Square
deriving DecidableEq, Repr

/-- Stroke join (sk.rs StrokeJoin). -/
inductive StrokeJoin where
  | Miter
  | Round
  | Bevel
deriving DecidableEq, Repr

/-- Blend modes (sk.rs BlendMode); only the constructors the embedded claims
touch are listed, with SourceOver the default of a fresh paint. -/
inductive BlendMode where
  | SourceOver
  | Multiply
  | Screen
  | Xor
deriving DecidableEq, Repr

/-- A 2D affine transform written with the canvas a-f entry names
(sk.rs Transform / skia matrix restricted to affine), over exact rationals.
A point (x, y) is mapped to (a x + c y + e, b x + d y + f). -/
structure AffineM where
  a : ℚ
  b : ℚ
  c : ℚ
  d : ℚ
  e : ℚ
  f : ℚ
deriving DecidableEq, Repr

/-- The identity transform (sk.rs Transform::default / Matrix::identity). -/
def AffineM.idm : AffineM := ⟨1, 0, 0, 1, 0, 0⟩

/-- Composition: comp M N applies N first, then M (matrix product M * N).
This is the operation skia uses for canvas concat and matrix pre-ops. -/
def AffineM.comp (M N : AffineM) : AffineM :=
  { a := M.a * N.a + M.c * N.b
    b := M.b * N.a + M.d * N.b
    c := M.a * N.c + M.c * N.d
    d := M.b * N.c + M.d * N.d
    e := M.a * N.e + M.c * N.f + M.e
    f := M.b * N.e + M.d * N.f + M.f }

/-- Pure translation by (dx, dy). -/
def AffineM.translate (dx dy : ℚ) : AffineM := ⟨1, 0, 0, 1, dx, dy⟩

/-- Determinant of the linear part. -/
def AffineM.det (M : AffineM) : ℚ := M.a * M.d - M.b * M.c

/-- The exact affine inverse, meaningful when det is nonzero. -/
def AffineM.inv (M : AffineM) : AffineM :=
  let dt := M.det
  { a := M.d / dt
    b := -M.b / dt
    c := -M.c / dt
    d := M.a / dt
    e := (M.c * M.f - M.d * M.e) / dt
    f := (M.b * M.e - M.a * M.f) / dt }

/-- Matrix::pre_translate of sk.rs: M becomes M * translate(dx, dy). -/
def AffineM.preTranslate (M : AffineM) (dx dy : ℚ) : AffineM :=
  M.comp (AffineM.translate dx dy)

/-- Matrix::invert of sk.rs: Some inverse when invertible, else None. -/
def AffineM.minvert (M : AffineM) : Option AffineM :=
  if M.det = 0 then none else some M.inv

theorem AffineM.comp_idm_left (M : AffineM) : AffineM.comp AffineM.idm M = M := by
  simp [AffineM.comp, AffineM.idm]

theorem AffineM.comp_inv_self (M : AffineM) (h : M.det ≠ 0) :
    M.comp M.inv = AffineM.idm := by
  have hd : M.a * M.d - M.b * M.c ≠ 0 := h
  simp only [AffineM.comp, AffineM.inv, AffineM.idm, AffineM.det]
  refine AffineM.mk.injEq .. ▸ ⟨?_, ?_, ?_, ?_, ?_, ?_⟩ <;> field_simp <;> ring

theorem AffineM.minvert_of_det_ne (M : AffineM) (h : M.det ≠ 0) :
    M.minvert = some M.inv := by
  simp [AffineM.minvert, h]

/-- f32::round of Rust on a nonnegative value (round half away from zero,
which on nonnegative inputs is floor after adding one half).  Every call site
below feeds it a nonnegative product of alphas. -/
def f32round (q : ℚ) : ℤ := ⌊q + 1/2⌋

/-- Rust float-to-u8 `as` cast: saturating, truncation toward zero.  All call
sites feed it a nonnegative integer, where it is clamping to 0..255. -/
def intToU8 (z : ℤ) : Nat := min z.toNat 255

/-- Rust f64-to-u8 `as` cast of a rational value (saturating, truncating). -/
def ratToU8 (q : ℚ) : Nat := min (⌊q⌋).toNat 255

/-- A gradient shader resolved against a transform (sk.rs Shader; the value
records the transform it was bound to). -/
structure Shader where
  ts : AffineM
deriving DecidableEq, Repr

/-- A dash path effect (sk.rs PathEffect::new_dash_path arguments). -/
structure DashEffect where
  intervals : List ℚ
  phase : ℚ
deriving DecidableEq, Repr

/-- A blur mask filter (sk.rs MaskFilter::make_blur argument). -/
structure BlurFilter where
  sigma : ℚ
deriving DecidableEq, Repr

/-- Modelled from the spec: the backend Paint object (spec section 6) as the
record of the values set on it; the skia paint itself is external C++.
Alpha is a component of the color, as in skia. -/
structure Paint where
  style : PaintStyle
  color : RGBA
  blendMode : BlendMode
  strokeWidth : ℚ
  strokeCap : StrokeCap
  strokeJoin : StrokeJoin
  strokeMiter : ℚ
  shader : Option Shader
  pathEffect : Option DashEffect
  maskFilter : Option BlurFilter
deriving DecidableEq, Repr

def Paint.setStyle (p : Paint) (s : PaintStyle) : Paint := { p with style := s }

def Paint.setColor (p : Paint) (r g b a : Nat) : Paint :=
  { p with color := ⟨r, g, b, a⟩ }

def Paint.setAlpha (p : Paint) (a : Nat) : Paint :=
  { p with color := { p.color with alpha := a } }

def Paint.getAlpha (p : Paint) : Nat := p.color.alpha

def Paint.setShader (p : Paint) (s : Shader) : Paint := { p with shader := some s }

def Paint.setPathEffect (p : Paint) (pe : DashEffect) : Paint :=
  { p with pathEffect := some pe }

def Paint.setMaskFilter (p : Paint) (m : BlurFilter) : Paint :=
  { p with maskFilter := some m }

/-- Paint::default of sk.rs: a fresh backend paint (skia defaults: fill style,
source-over blend, butt cap, miter join, stroke width 0) on which the source
then sets color (0,0,0,0) and stroke miter 10. -/
def Paint.default : Paint :=
  { style := .Fill
    color := ⟨0, 0, 0, 0⟩
    blendMode := .SourceOver
    strokeWidth := 0
    strokeCap := .Butt
    strokeJoin := .Miter
    strokeMiter := 10
    shader := none
    pathEffect := none
    maskFilter := none }

/-- Modelled from the spec: the Pattern tagged union (spec section 3; the
pattern module is not under src).  Color carries the parsed RGBA and the
original text; Gradient carries a reference to a shared gradient value,
abbreviated to an identifier since gradients are immutable after creation;
ImagePattern is the unimplemented placeholder. -/
inductive Pattern where
  | Color (c : RGBA) (source : String)
  | Gradient (g : Nat)
  | ImagePattern (p : Nat)
deriving DecidableEq, Repr

/-- Modelled from the spec: the Context2dRenderingState record (spec section 3;
the state module is not under src): the stackable style fields. -/
structure RenderingState where
  fill_style : Pattern
  stroke_style : Pattern
  shadow_color : RGBA
  shadow_color_string : String
  shadow_blur : ℚ
  shadow_offset_x : ℚ
  shadow_offset_y : ℚ
  line_dash_list : List ℚ
  line_dash_offset : ℚ
deriving DecidableEq, Repr

/-- Modelled from the spec: the default-valued rendering state a fresh context
starts with (spec section 3): opaque black color sources, fully transparent
shadow, zero blur and offsets, empty dash list. -/
def RenderingState.default : RenderingState :=
  { fill_style := .Color ⟨0, 0, 0, 255⟩ "#000"
    stroke_style := .Color ⟨0, 0, 0, 255⟩ "#000"
    shadow_color := ⟨0, 0, 0, 0⟩
    shadow_color_string := "rgba(0, 0, 0, 0)"
    shadow_blur := 0
    shadow_offset_x := 0
    shadow_offset_y := 0
    line_dash_list := []
    line_dash_offset := 0 }

instance : Inhabited RenderingState := ⟨RenderingState.default⟩

/-- The current path (sk.rs Path); the geometry itself is backend-owned, the
embedding keeps the fill-rule tag the draw operations set at use time. -/
structure PathM where
  fillType : FillType
deriving DecidableEq, Repr

/-- The backend surface restricted to what the core reads and writes through
it: the active transform and the save stack of transforms saved by
canvas save/restore (the clip is handled by the same stack in skia and is not
otherwise inspected by the embedded claims). -/
structure SurfaceM where
  transform : AffineM
  saved : List AffineM
deriving DecidableEq, Repr

/-- Surface::save (canvas save of transform and clip). -/
def SurfaceM.save (s : SurfaceM) : SurfaceM :=
  { s with saved := s.transform :: s.saved }

/-- Surface::restore: pop the innermost saved transform and clip; at the base
save level skia ignores the call. -/
def SurfaceM.restore (s : SurfaceM) : SurfaceM :=
  match s.saved with
  | [] => s
  | t :: rest => { transform := t, saved := rest }

/-- Canvas::concat: the matrix is applied before the existing transform. -/
def SurfaceM.concat (s : SurfaceM) (m : AffineM) : SurfaceM :=
  { s with transform := s.transform.comp m }

/-- The drawing context (ctx.rs Context): surface, current path, global
(non-stacked) paint, and the rendering-state stack with the top at the head;
the source keeps the stack in a Vec with the top at the end. -/
structure Context where
  surface : SurfaceM
  path : PathM
  paint : Paint
  states : List RenderingState
deriving DecidableEq, Repr

/-- The top rendering state, states.last().unwrap() of the source; the stack
is nonempty from construction on (a default is supplied for totality). -/
def Context.topState (c : Context) : RenderingState := c.states.headI

/-- Context::new: fresh surface with identity transform, fresh path, default
paint, and a one-element state stack holding the default state. -/
def Context.create : Context :=
  { surface := { transform := AffineM.idm, saved := [] }
    path := { fillType := .Winding }
    paint := Paint.default
    states := [RenderingState.default] }

/-- Modelled from the spec: outcome flags for the external backend
constructors that can fail (spec sections 6 and 7: dash-effect, blur-mask and
gradient-shader construction are backend calls returning an optional value;
their failure is a backend resource error).  A flag set to false makes the
corresponding constructor fail, which lets the embedding quantify over
external failure behavior. -/
structure BackendEnv where
  dashOk : Bool
  blurOk : Bool
  shaderOk : Bool
deriving DecidableEq, Repr

/-- The all-succeeding backend environment. -/
def BackendEnv.ok : BackendEnv := ⟨true, true, true⟩

/-- PathEffect::new_dash_path (external skia constructor, optional result). -/
def newDashPath (env : BackendEnv) (intervals : List ℚ) (phase : ℚ) :
    Option DashEffect :=
  if env.dashOk then some ⟨intervals, phase⟩ else none

/-- MaskFilter::make_blur (external skia constructor, optional result). -/
def makeBlur (env : BackendEnv) (sigma : ℚ) : Option BlurFilter :=
  if env.blurOk then some ⟨sigma⟩ else none

/-- Modelled from the spec: CanvasGradient::get_shader (gradient module not
under src; spec section 6: resolveShader(activeTransform) returns a shader
bound to the given transform or a backend resource error). -/
def getShader (env : BackendEnv) (_g : Nat) (ts : AffineM) :
    Except CanvasError Shader :=
  if env.shaderOk then .ok ⟨ts⟩ else .error (.Generic "Create shader failed")

/-- The alpha computed for a Color pattern in fill_paint and stroke_paint of
ctx.rs, a faithful transcription of the f32 expression
((color.alpha as f32 / 255.0) * (global_alpha as f32 / 255.0)).round() as u8
into exact rational arithmetic. -/
def resolveColorAlpha (colorAlpha globalAlpha : Nat) : Nat :=
  intToU8 (f32round ((colorAlpha : ℚ) / 255 * ((globalAlpha : ℚ) / 255)))

/-- Context::fill_paint of ctx.rs: clone the global paint, set fill style,
branch on the active fill style pattern, then attach a dash effect when the
dash list is nonempty. -/
def fill_paint (env : BackendEnv) (c : Context) : Except CanvasError Paint :=
  let paint0 := c.paint.setStyle .Fill
  let lastState := c.topState
  let styled : Except CanvasError Paint :=
    match lastState.fill_style with
    | .Color col _ =>
      let newAlpha := resolveColorAlpha col.alpha c.paint.getAlpha
      .ok (paint0.setColor col.red col.green col.blue newAlpha)
    | .Gradient g =>
      let currentTransform := c.surface.transform
      match getShader env g currentTransform with
      | .error e => .error e
      | .ok shader => .ok ((paint0.setColor 0 0 0 c.paint.getAlpha).setShader shader)
    | .ImagePattern _ => .ok paint0
  match styled with
  | .error e => .error e
  | .ok paint1 =>
    if lastState.line_dash_list.length ≠ 0 then
      match newDashPath env lastState.line_dash_list lastState.line_dash_offset with
      | none => .error (.Generic "Make line dash path effect failed")
      | some pe => .ok (paint1.setPathEffect pe)
    else
      .ok paint1

/-- Context::stroke_paint of ctx.rs: identical to fill_paint with stroke
style and the stroke_style pattern. -/
def stroke_paint (env : BackendEnv) (c : Context) : Except CanvasError Paint :=
  let paint0 := c.paint.setStyle .Stroke
  let lastState := c.topState
  let globalAlpha := c.paint.getAlpha
  let styled : Except CanvasError Paint :=
    match lastState.stroke_style with
    | .Color col _ =>
      let newAlpha := resolveColorAlpha col.alpha globalAlpha
      .ok (paint0.setColor col.red col.green col.blue newAlpha)
    | .Gradient g =>
      let currentTransform := c.surface.transform
      match getShader env g currentTransform with
      | .error e => .error e
      | .ok shader => .ok ((paint0.setColor 0 0 0 globalAlpha).setShader shader)
    | .ImagePattern _ => .ok paint0
  match styled with
  | .error e => .error e
  | .ok paint1 =>
    if lastState.line_dash_list ≠ [] then
      match newDashPath env lastState.line_dash_list lastState.line_dash_offset with
      | none => .error (.Generic "Make line dash path effect failed")
      | some pe => .ok (paint1.setPathEffect pe)
    else
      .ok paint1

/-- The u8 product shadow_alpha * alpha of Context::shadow_paint.  The source
multiplies two u8 values with the plain * operator, which in a release build
wraps modulo 256 (a debug build aborts on overflow); the embedding uses the
release semantics, written explicitly. -/
def composedShadowAlpha (shadowColorAlpha paintAlpha : Nat) : Nat :=
  shadowColorAlpha * paintAlpha % 256

/-- Context::shadow_paint of ctx.rs: decide whether a shadow pass runs and
build its paint.  None means the shadow pass is suppressed. -/
def shadow_paint (env : BackendEnv) (c : Context) (paint : Paint) :
    Option Paint :=
  let alpha := paint.getAlpha
  let lastState := c.topState
  let shadowAlpha := composedShadowAlpha lastState.shadow_color.alpha alpha
  if shadowAlpha = 0 then
    none
  else if lastState.shadow_blur = 0 ∨ lastState.shadow_offset_x = 0 ∨
      lastState.shadow_offset_y = 0 then
    none
  else
    let shadowPaint := paint.setAlpha shadowAlpha
    match makeBlur env (lastState.shadow_blur / 2) with
    | none => none
    | some blurEffect => some (shadowPaint.setMaskFilter blurEffect)

/-- Context::apply_shadow_offset_matrix of ctx.rs: read the current transform
T, concat its inverse (failing when T is singular), concat T pre-translated by
the shadow offset, then concat T again. -/
def apply_shadow_offset_matrix (s : SurfaceM) (shadowOffsetX shadowOffsetY : ℚ) :
    Except CanvasError SurfaceM :=
  let currentTransform := s.transform
  match currentTransform.minvert with
  | none => .error (.Generic "Invert matrix failed")
  | some invertM =>
    let s1 := s.concat invertM
    let shadowOffset := currentTransform.preTranslate shadowOffsetX shadowOffsetY
    let s2 := s1.concat shadowOffset
    let s3 := s2.concat currentTransform
    .ok s3

/-- One backend draw call as the drawing pipeline issues it: the geometry,
the resolved paint, and the active transform at the moment of the call. -/
inductive DrawCall where
  | rect (x y w h : ℚ) (paint : Paint) (transform : AffineM)
  | path (p : PathM) (paint : Paint) (transform : AffineM)
deriving DecidableEq, Repr

/-- Result of a draw operation: the context after the call, the backend draw
calls issued in order, and the error surfaced to the caller if any. -/
abbrev DrawResult := Context × List DrawCall × Option CanvasError

/-- Context::fill_rect of ctx.rs: resolve the fill paint, run the shadow
compositor (save, offset matrix, shadow draw, restore), then the primary
draw.  A failure of the offset matrix propagates after the surface save, as
in the source. -/
def fill_rect (env : BackendEnv) (c : Context) (x y w h : ℚ) : DrawResult :=
  match fill_paint env c with
  | .error e => (c, [], some e)
  | .ok fillPaint =>
    match shadow_paint env c fillPaint with
    | some shadowPaint =>
      let s1 := c.surface.save
      match apply_shadow_offset_matrix s1 c.topState.shadow_offset_x
          c.topState.shadow_offset_y with
      | .error e => ({ c with surface := s1 }, [], some e)
      | .ok s2 =>
        let shadowCall := DrawCall.rect x y w h shadowPaint s2.transform
        let s3 := s2.restore
        let primaryCall := DrawCall.rect x y w h fillPaint s3.transform
        ({ c with surface := s3 }, [shadowCall, primaryCall], none)
    | none =>
      (c, [DrawCall.rect x y w h fillPaint c.surface.transform], none)

/-- Context::stroke_rect of ctx.rs: as fill_rect with the stroke paint. -/
def stroke_rect (env : BackendEnv) (c : Context) (x y w h : ℚ) : DrawResult :=
  match stroke_paint env c with
  | .error e => (c, [], some e)
  | .ok strokePaint =>
    match shadow_paint env c strokePaint with
    | some shadowPaint =>
      let s1 := c.surface.save
      match apply_shadow_offset_matrix s1 c.topState.shadow_offset_x
          c.topState.shadow_offset_y with
      | .error e => ({ c with surface := s1 }, [], some e)
      | .ok s2 =>
        let shadowCall := DrawCall.rect x y w h shadowPaint s2.transform
        let s3 := s2.restore
        let primaryCall := DrawCall.rect x y w h strokePaint s3.transform
        ({ c with surface := s3 }, [shadowCall, primaryCall], none)
    | none =>
      (c, [DrawCall.rect x y w h strokePaint c.surface.transform], none)

/-- Context::fill of ctx.rs: set the fill rule on the chosen path (the given
one, or the context path in place), resolve the fill paint, shadow pass,
primary pass. -/
def fill (env : BackendEnv) (c : Context) (pathArg : Option PathM)
    (fillRule : FillType) : DrawResult :=
  let (c1, p) := match pathArg with
    | some pext => (c, { pext with fillType := fillRule })
    | none =>
      let newPath := { c.path with fillType := fillRule }
      ({ c with path := newPath }, newPath)
  match fill_paint env c1 with
  | .error e => (c1, [], some e)
  | .ok fillPaint =>
    match shadow_paint env c1 fillPaint with
    | some shadowPaint =>
      let s1 := c1.surface.save
      match apply_shadow_offset_matrix s1 c1.topState.shadow_offset_x
          c1.topState.shadow_offset_y with
      | .error e => ({ c1 with surface := s1 }, [], some e)
      | .ok s2 =>
        let shadowCall := DrawCall.path p shadowPaint s2.transform
        let s3 := s2.restore
        let primaryCall := DrawCall.path p fillPaint s3.transform
        ({ c1 with surface := s3 }, [shadowCall, primaryCall], none)
    | none =>
      (c1, [DrawCall.path p fillPaint c1.surface.transform], none)

/-- Context::stroke of ctx.rs: draw the given path or the context path with
the stroke paint; no fill rule is involved. -/
def stroke (env : BackendEnv) (c : Context) (pathArg : Option PathM) :
    DrawResult :=
  let p := pathArg.getD c.path
  match stroke_paint env c with
  | .error e => (c, [], some e)
  | .ok strokePaint =>
    match shadow_paint env c strokePaint with
    | some shadowPaint =>
      let s1 := c.surface.save
      match apply_shadow_offset_matrix s1 c.topState.shadow_offset_x
          c.topState.shadow_offset_y with
      | .error e => ({ c with surface := s1 }, [], some e)
      | .ok s2 =>
        let shadowCall := DrawCall.path p shadowPaint s2.transform
        let s3 := s2.restore
        let primaryCall := DrawCall.path p strokePaint s3.transform
        ({ c with surface := s3 }, [shadowCall, primaryCall], none)
    | none =>
      (c, [DrawCall.path p strokePaint c.surface.transform], none)

/-- The states-stack effect of Context::save: push a clone of the top frame
(the source clones states.last() and pushes it; the stack is nonempty by
invariant, and an empty stack is left unchanged for totality). -/
def statesSave : List RenderingState → List RenderingState
  | [] => []
  | a :: t => a :: a :: t

/-- The states-stack effect of Context::restore: pop only when more than one
frame is present. -/
def statesRestore (l : List RenderingState) : List RenderingState :=
  if 1 < l.length then l.tail else l

/-- The states-stack effect of a top-frame style mutation (the accessors of
ctx.rs write through states.last_mut()). -/
def statesSetTop (f : RenderingState → RenderingState) :
    List RenderingState → List RenderingState
  | [] => []
  | a :: t => f a :: t

/-- Context::save of ctx.rs: surface save (transform and clip), then push a
clone of the top rendering state. -/
def Context.save (c : Context) : Context :=
  { c with surface := c.surface.save, states := statesSave c.states }

/-- Context::restore of ctx.rs: surface restore always; pop the style stack
only when its depth is greater than one. -/
def Context.restore (c : Context) : Context :=
  { c with surface := c.surface.restore, states := statesRestore c.states }

/-- A step of a save/restore/style-mutation sequence against the context. -/
inductive StackOp where
  | save
  | restore
  | mutate (f : RenderingState → RenderingState)

/-- Run a sequence of stack operations left to right. -/
def runStack : List StackOp → Context → Context
  | [], c => c
  | .save :: w, c => runStack w c.save
  | .restore :: w, c => runStack w c.restore
  | .mutate f :: w, c =>
    runStack w { c with states := statesSetTop f c.states }

/-- The balanced-and-matched check on a stack-op word: scanning left to right
with d open saves, a restore needs d positive, and the word ends with no open
save.  closedWord 0 w says every prefix of w has no more restores than saves
and the counts agree at the end. -/
def closedWord : Nat → List StackOp → Bool
  | d, [] => d == 0
  | d, .save :: w => closedWord (d + 1) w
  | d, .restore :: w => decide (0 < d) && closedWord (d - 1) w
  | d, .mutate _ :: w => closedWord d w

/-- set_global_alpha of ctx.rs: validate the range before any mutation, then
store (alpha * 255.0) as u8 in the global paint.  The context is returned
together with the error surfaced to the caller, if any. -/
def set_global_alpha (c : Context) (alpha : ℚ) : Context × Option CanvasError :=
  if alpha < 0 ∨ 1 < alpha then
    (c, some (.InvalidArg "Alpha value out of range, expected 0.0 - 1.0"))
  else
    ({ c with paint := c.paint.setAlpha (ratToU8 (alpha * 255)) }, none)

/-- get_global_alpha of ctx.rs: the stored u8 alpha divided by 255. -/
def get_global_alpha (c : Context) : ℚ := (c.paint.getAlpha : ℚ) / 255

/-- The outcome of the external CSS color parser (cssparser collaborator):
either the currentcolor keyword or a concrete RGBA. -/
inductive ParsedColor where
  | CurrentColor
  | Rgba (c : RGBA)
deriving DecidableEq, Repr

/-- set_shadow_color of ctx.rs, parameterized by the external color parser
(None is a parse failure): the textual form on the top frame is overwritten
first, then the text is parsed; a parse failure or the currentcolor keyword
surfaces an error, and only a concrete RGBA reaches the shadow_color field. -/
def set_shadow_color (parse : String → Option ParsedColor) (c : Context)
    (shadowColorStr : String) : Context × Option CanvasError :=
  let c1 := { c with
    states := statesSetTop (fun st => { st with shadow_color_string := shadowColorStr }) c.states }
  match parse shadowColorStr with
  | none => (c1, some (.Generic "Invalid color"))
  | some .CurrentColor =>
    (c1, some (.InvalidArg "Color should not be the currentcolor keyword"))
  | some (.Rgba rgba) =>
    ({ c1 with
      states := statesSetTop (fun st => { st with shadow_color := rgba }) c1.states }, none)

/-- get_shadow_color of ctx.rs: the stored textual form on the top frame. -/
def get_shadow_color (c : Context) : String := c.topState.shadow_color_string

theorem SurfaceM.restore_save (s : SurfaceM) : s.save.restore = s := by
  simp [SurfaceM.save, SurfaceM.restore]

theorem SurfaceM.concat_transform (s : SurfaceM) (m : AffineM) :
    (s.concat m).transform = s.transform.comp m := rfl

theorem SurfaceM.concat_saved (s : SurfaceM) (m : AffineM) :
    (s.concat m).saved = s.saved := rfl

/-- With an invertible active transform T, the offset-matrix algorithm
succeeds and (in exact arithmetic) leaves the transform (T * translate) * T,
the save stack untouched. -/
theorem apply_shadow_offset_matrix_ok (s : SurfaceM) (dx dy : ℚ)
    (h : s.transform.det ≠ 0) :
    apply_shadow_offset_matrix s dx dy =
      .ok { s with transform :=
        (s.transform.comp (AffineM.translate dx dy)).comp s.transform } := by
  have hminv := AffineM.minvert_of_det_ne s.transform h
  have hinv := AffineM.comp_inv_self s.transform h
  simp only [apply_shadow_offset_matrix, hminv, SurfaceM.concat,
    AffineM.preTranslate]
  have h1 : s.transform.comp s.transform.inv = AffineM.idm := hinv
  rw [h1, AffineM.comp_idm_left]

/-- A singular active transform makes the offset-matrix algorithm fail. -/
theorem apply_shadow_offset_matrix_err (s : SurfaceM) (dx dy : ℚ)
    (h : s.transform.det = 0) :
    apply_shadow_offset_matrix s dx dy =
      .error (.Generic "Invert matrix failed") := by
  simp [apply_shadow_offset_matrix, AffineM.minvert, h]

theorem runStack_append (u v : List StackOp) (c : Context) :
    runStack (u ++ v) c = runStack v (runStack u c) := by
  induction u generalizing c with
  | nil => rfl
  | cons op w ih =>
    cases op <;> simp only [List.cons_append, runStack] <;> exact ih _

theorem runStack_save_states (c : Context) :
    (runStack [StackOp.save] c).states = statesSave c.states := rfl

/-- Core stack lemma: a closed word started above a protected tail leaves the
tail untouched and ends with exactly one live frame above it. -/
theorem runStack_closed_protects (w : List StackOp) :
    ∀ (d : Nat) (c : Context) (live t : List RenderingState),
      closedWord d w = true → c.states = live ++ t → live.length = d + 1 →
      ∃ x, (runStack w c).states = x :: t := by
  induction w with
  | nil =>
    intro d c live t hcl hst hlen
    simp only [closedWord, beq_iff_eq] at hcl
    subst hcl
    match live, hlen with
    | [x], _ => exact ⟨x, by simpa using hst⟩
  | cons op w ih =>
    intro d c live t hcl hst hlen
    match op with
    | .save =>
      simp only [closedWord] at hcl
      match live, hlen with
      | a :: l, hlen =>
        refine ih (d + 1) c.save (a :: a :: l) t hcl ?_ ?_
        · simp [Context.save, hst, statesSave]
        · simpa using congrArg Nat.succ hlen
    | .restore =>
      simp only [closedWord, Bool.and_eq_true, decide_eq_true_eq] at hcl
      obtain ⟨hd, hcl⟩ := hcl
      match live, hlen with
      | a :: l, hlen =>
        simp only [List.length_cons] at hlen
        have hlterm : l.length = (d - 1) + 1 := by omega
        refine ih (d - 1) c.restore l t hcl ?_ hlterm
        have hlong : 1 < c.states.length := by
          rw [hst]
          simp only [List.cons_append, List.length_append, List.length_cons]
          omega
        show statesRestore c.states = l ++ t
        rw [statesRestore, if_pos hlong, hst, List.cons_append, List.tail_cons]
    | .mutate f =>
      simp only [closedWord] at hcl
      match live, hlen with
      | a :: l, hlen =>
        refine ih d _ (f a :: l) t hcl ?_ ?_
        · simp [statesSetTop, hst]
        · simpa using hlen

theorem statesSave_ne_nil (l : List RenderingState) (h : l ≠ []) :
    statesSave l ≠ [] := by
  cases l with
  | nil => exact absurd rfl h
  | cons a t => simp [statesSave]

theorem statesRestore_ne_nil (l : List RenderingState) (h : l ≠ []) :
    statesRestore l ≠ [] := by
  rw [statesRestore]
  split
  · cases l with
    | nil => exact absurd rfl h
    | cons a t =>
      cases t with
      | nil => simp_all
      | cons b r => simp
  · exact h

theorem statesSetTop_ne_nil (f : RenderingState → RenderingState)
    (l : List RenderingState) (h : l ≠ []) : statesSetTop f l ≠ [] := by
  cases l with
  | nil => exact absurd rfl h
  | cons a t => simp [statesSetTop]

theorem runStack_states_ne_nil (w : List StackOp) (c : Context)
    (h : c.states ≠ []) : (runStack w c).states ≠ [] := by
  induction w generalizing c with
  | nil => exact h
  | cons op w ih =>
    match op with
    | .save => exact ih c.save (statesSave_ne_nil _ h)
    | .restore => exact ih c.restore (statesRestore_ne_nil _ h)
    | .mutate f => exact ih _ (statesSetTop_ne_nil f _ h)

theorem runStack_paint_path (w : List StackOp) (c : Context) :
    (runStack w c).paint = c.paint ∧ (runStack w c).path = c.path := by
  induction w generalizing c with
  | nil => exact ⟨rfl, rfl⟩
  | cons op w ih =>
    match op with
    | .save => exact ih c.save
    | .restore => exact ih c.restore
    | .mutate f => exact ih _

/-- If shadow_paint yields a paint, none of the gating checks fired. -/
theorem shadow_paint_some_imp (env : BackendEnv) (c : Context) (p sp : Paint)
    (h : shadow_paint env c p = some sp) :
    composedShadowAlpha c.topState.shadow_color.alpha p.getAlpha ≠ 0 ∧
    c.topState.shadow_blur ≠ 0 ∧ c.topState.shadow_offset_x ≠ 0 ∧
    c.topState.shadow_offset_y ≠ 0 := by
  by_cases h1 : composedShadowAlpha c.topState.shadow_color.alpha p.getAlpha = 0
  · rw [shadow_paint, if_pos h1] at h
    exact absurd h (by simp)
  · by_cases h2 : c.topState.shadow_blur = 0 ∨ c.topState.shadow_offset_x = 0 ∨
        c.topState.shadow_offset_y = 0
    · rw [shadow_paint, if_neg h1, if_pos h2] at h
      exact absurd h (by simp)
    · push_neg at h2
      exact ⟨h1, h2.1, h2.2.1, h2.2.2⟩

/-- If any gating check fires, shadow_paint is suppressed. -/
theorem shadow_paint_none_of (env : BackendEnv) (c : Context) (p : Paint)
    (h : composedShadowAlpha c.topState.shadow_color.alpha p.getAlpha = 0 ∨
      c.topState.shadow_blur = 0 ∨ c.topState.shadow_offset_x = 0 ∨
      c.topState.shadow_offset_y = 0) :
    shadow_paint env c p = none := by
  rcases h with h1 | h2
  · rw [shadow_paint, if_pos h1]
  · rw [shadow_paint]
    by_cases h1 : composedShadowAlpha c.topState.shadow_color.alpha p.getAlpha = 0
    · rw [if_pos h1]
    · rw [if_neg h1, if_pos h2]

/-- The wrapped u8 product is zero whenever the true product is zero, so a
nonzero wrapped product forces a positive true product. -/
theorem composedShadowAlpha_ne_zero_pos (a b : Nat)
    (h : composedShadowAlpha a b ≠ 0) : 0 < a * b := by
  rcases Nat.eq_zero_or_pos (a * b) with h0 | h0
  · exact absurd (by simp [composedShadowAlpha, h0]) h
  · exact h0

/-- A context whose fill style is a gradient, with an opaque shadow color,
blur 5, shadow offsets (0, 3), and global alpha 255. -/
def c2Ctx : Context :=
  { Context.create with
    states := [{ RenderingState.default with
      fill_style := .Gradient 0
      shadow_color := ⟨0, 0, 0, 255⟩
      shadow_blur := 5
      shadow_offset_x := 0
      shadow_offset_y := 3 }]
    paint := Paint.default.setAlpha 255 }

/-- The paint fill_paint resolves for c2Ctx. -/
def c2FillPaint : Paint :=
  (((Paint.default.setAlpha 255).setStyle .Fill).setColor 0 0 0 255).setShader
    ⟨AffineM.idm⟩

/-- C2: a shadow pass is emitted only if the composed shadow alpha
(shadowColor.alpha times the resolved paint alpha) is positive, shadowBlur is
nonzero, and both shadow offsets are nonzero; if any of these fails the
shadow paint is suppressed, and in particular with shadowOffsetX = 0 a
fillRect performs exactly the one primary draw. -/
theorem c2_shadow_gating :
    (∀ (env : BackendEnv) (c : Context) (p sp : Paint),
      shadow_paint env c p = some sp →
      0 < c.topState.shadow_color.alpha * p.getAlpha ∧
      c.topState.shadow_blur ≠ 0 ∧ c.topState.shadow_offset_x ≠ 0 ∧
      c.topState.shadow_offset_y ≠ 0) ∧
    (∀ (env : BackendEnv) (c : Context) (p : Paint),
      (composedShadowAlpha c.topState.shadow_color.alpha p.getAlpha = 0 ∨
        c.topState.shadow_blur = 0 ∨ c.topState.shadow_offset_x = 0 ∨
        c.topState.shadow_offset_y = 0) →
      shadow_paint env c p = none) ∧
    (∀ (env : BackendEnv) (c : Context) (fp : Paint) (x y w h : ℚ),
      fill_paint env c = .ok fp → c.topState.shadow_offset_x = 0 →
      fill_rect env c x y w h =
        (c, [DrawCall.rect x y w h fp c.surface.transform], none)) := by
  refine ⟨?_, ?_, ?_⟩
  · intro env c p sp h
    obtain ⟨h1, h2, h3, h4⟩ := shadow_paint_some_imp env c p sp h
    exact ⟨composedShadowAlpha_ne_zero_pos _ _ h1, h2, h3, h4⟩
  · intro env c p h
    exact shadow_paint_none_of env c p h
  · intro env c fp x y w h hfp hox
    have hnone := shadow_paint_none_of env c fp (Or.inr (Or.inr (Or.inl hox)))
    simp only [fill_rect, hfp, hnone]

/-- Witness for C2 at a concrete context: shadowOffsetX = 0 with
shadowOffsetY = 3 suppresses the shadow and fillRect issues one draw call. -/
theorem c2_shadow_gating_witness :
    fill_rect BackendEnv.ok c2Ctx 0 0 10 10 =
      (c2Ctx, [DrawCall.rect 0 0 10 10 c2FillPaint c2Ctx.surface.transform],
        none) :=
  c2_shadow_gating.2.2 BackendEnv.ok c2Ctx c2FillPaint 0 0 10 10 rfl rfl

/-- A context with shadow color alpha 128, blur 5, and offsets (3, 3). -/
def c3Context : Context :=
  { Context.create with
    states := [{ RenderingState.default with
      shadow_color := ⟨0, 0, 0, 128⟩
      shadow_blur := 5
      shadow_offset_x := 3
      shadow_offset_y := 3 }] }

/-- C3: the shadow alpha composition is the wrapping u8 product of the
source, not a saturating one: at shadowColor.alpha = 128 and paint alpha 2
the true product 256 wraps to 0 instead of clamping to 255, and the wrapped
zero suppresses the shadow pass outright. -/
theorem c3_shadow_alpha_wraps :
    composedShadowAlpha 128 2 = 0 ∧ composedShadowAlpha 128 2 ≠ 255 ∧
    shadow_paint BackendEnv.ok c3Context (Paint.default.setAlpha 2) = none :=
  ⟨rfl, by decide, rfl⟩

/-- C6: for any save/restore/style-mutation word whose restores never exceed
its saves (and which closes every save it opens), wrapping it in a
save/restore pair returns the whole stackable-state stack, in particular the
top frame fields, to their values at the save; restore at depth one leaves
the style frame untouched; and no operation sequence ever empties the stack. -/
theorem c6_state_stack_roundtrip :
    (∀ (w : List StackOp) (c : Context) (a : RenderingState)
        (r : List RenderingState),
      closedWord 0 w = true → c.states = a :: r →
      (runStack (StackOp.save :: w ++ [StackOp.restore]) c).states = a :: r) ∧
    (∀ c : Context, c.states.length = 1 →
      (Context.restore c).states = c.states) ∧
    (∀ (w : List StackOp) (c : Context), c.states ≠ [] →
      (runStack w c).states ≠ []) := by
  refine ⟨?_, ?_, ?_⟩
  · intro w c a r hcl hst
    have hsave : (Context.save c).states = [a] ++ (a :: r) := by
      show statesSave c.states = [a] ++ (a :: r)
      rw [hst]
      rfl
    obtain ⟨x, hx⟩ :=
      runStack_closed_protects w 0 (Context.save c) [a] (a :: r) hcl hsave rfl
    have hsplit : runStack (StackOp.save :: w ++ [StackOp.restore]) c
        = Context.restore (runStack w (Context.save c)) := by
      have h1 : StackOp.save :: w ++ [StackOp.restore]
          = (StackOp.save :: w) ++ [StackOp.restore] := rfl
      rw [h1, runStack_append]
      rfl
    rw [hsplit]
    show statesRestore (runStack w (Context.save c)).states = a :: r
    rw [hx, statesRestore, if_pos (by simp only [List.length_cons]; omega),
      List.tail_cons]
  · intro c hlen
    show statesRestore c.states = c.states
    rw [statesRestore, if_neg (by omega)]
  · intro w c h
    exact runStack_states_ne_nil w c h

/-- A concrete style mutation for the C6 witness. -/
def bumpShadowBlur : RenderingState → RenderingState :=
  fun st => { st with shadow_blur := 7 }

/-- Witness for C6: save, mutate the top frame, restore returns the fresh
context to its original single default frame. -/
theorem c6_state_stack_roundtrip_witness :
    (runStack [StackOp.save, StackOp.mutate bumpShadowBlur, StackOp.restore]
      Context.create).states = [RenderingState.default] :=
  c6_state_stack_roundtrip.1 [StackOp.mutate bumpShadowBlur] Context.create
    RenderingState.default [] rfl rfl

/-- C7: save and restore, singly and in any sequence, leave the global
(non-stacked) paint untouched, hence strokeWidth, strokeCap, strokeJoin,
miterLimit, the stored globalAlpha and the blend mode all survive; the
current path is untouched as well: only the state stack and the backend
transform/clip change. -/
theorem c7_save_restore_preserves_global_paint :
    (∀ c : Context, (Context.save c).paint = c.paint ∧
      (Context.save c).path = c.path) ∧
    (∀ c : Context, (Context.restore c).paint = c.paint ∧
      (Context.restore c).path = c.path) ∧
    (∀ (w : List StackOp) (c : Context),
      (runStack w c).paint = c.paint ∧ (runStack w c).path = c.path ∧
      get_global_alpha (runStack w c) = get_global_alpha c) :=
  ⟨fun _ => ⟨rfl, rfl⟩, fun _ => ⟨rfl, rfl⟩, fun w c =>
    ⟨(runStack_paint_path w c).1, (runStack_paint_path w c).2,
      congrArg (fun p => (Paint.getAlpha p : ℚ) / 255) (runStack_paint_path w c).1⟩⟩

/-- Counterexample to C8 as stated: setGlobalAlpha(1/2) succeeds, but the
read-back value is 127/255, not the 1/2 that was written (the source stores
(0.5 * 255.0) as u8 = 127, truncating). -/
theorem c8_readback_changes_value :
    (set_global_alpha Context.create (1/2)).2 = none ∧
    get_global_alpha (set_global_alpha Context.create (1/2)).1 ≠ 1/2 := by
  constructor
  · rw [set_global_alpha, if_neg (by norm_num)]
  · rw [set_global_alpha, if_neg (by norm_num)]
    show ((Paint.getAlpha _ : ℚ)) / 255 ≠ 1/2
    have h127 : (127:ℤ).toNat = 127 := rfl
    norm_num [Paint.getAlpha, Paint.setAlpha, ratToU8, Context.create,
      Paint.default, h127]

/-- C8 (amended): setGlobalAlpha(a) fails with a validation error exactly
when a is outside 0..1, leaving the context untouched; for a inside the
range it succeeds and the read-back value is the quantized
floor(a * 255) / 255 (equal to a only when a * 255 is an integer), not a
itself in general. -/
theorem c8_set_global_alpha_amended (a : ℚ) (c : Context) :
    ((set_global_alpha c a).2.isSome ↔ (a < 0 ∨ 1 < a)) ∧
    ((a < 0 ∨ 1 < a) → (set_global_alpha c a).1 = c) ∧
    (0 ≤ a → a ≤ 1 →
      (set_global_alpha c a).2 = none ∧
      get_global_alpha (set_global_alpha c a).1 = (⌊a * 255⌋ : ℚ) / 255) := by
  refine ⟨?_, ?_, ?_⟩
  · constructor
    · intro hs
      by_contra hn
      rw [set_global_alpha, if_neg hn] at hs
      simp at hs
    · intro h
      rw [set_global_alpha, if_pos h]
      rfl
  · intro h
    rw [set_global_alpha, if_pos h]
  · intro h0 h1
    have hrange : ¬(a < 0 ∨ 1 < a) := by
      push_neg
      exact ⟨h0, h1⟩
    rw [set_global_alpha, if_neg hrange]
    refine ⟨rfl, ?_⟩
    show ((Paint.getAlpha (c.paint.setAlpha (ratToU8 (a * 255))) : ℚ)) / 255
      = (⌊a * 255⌋ : ℚ) / 255
    have hfl0 : (0:ℤ) ≤ ⌊a * 255⌋ := Int.floor_nonneg.mpr (by positivity)
    have hfl255 : ⌊a * 255⌋ ≤ 255 := by
      have hle : a * 255 ≤ 255 := by nlinarith
      calc ⌊a * 255⌋ ≤ ⌊(255:ℚ)⌋ := Int.floor_mono hle
        _ = 255 := by norm_num
    have hgA : Paint.getAlpha (c.paint.setAlpha (ratToU8 (a * 255)))
        = ratToU8 (a * 255) := rfl
    rw [hgA, ratToU8]
    have hmin : min (⌊a * 255⌋).toNat 255 = (⌊a * 255⌋).toNat := by
      apply min_eq_left
      omega
    rw [hmin]
    congr 1
    exact_mod_cast congrArg (fun n : ℤ => (n : ℚ)) (Int.toNat_of_nonneg hfl0)

/-- Witness for the amended C8 at a = 1/2 on a fresh context: the setter
succeeds and the read-back value is the quantized 127/255. -/
theorem c8_set_global_alpha_amended_witness :
    get_global_alpha (set_global_alpha Context.create (1/2)).1 = (127 : ℚ) / 255 := by
  have h := (c8_set_global_alpha_amended (1/2) Context.create).2.2
    (by norm_num) (by norm_num)
  rw [h.2]
  norm_num

/-- C10: when the color parser rejects the input, setShadowColor fails, yet
the textual shadow-color field on the top frame has already been replaced by
the rejected string while the RGBA shadow color is left unchanged: exactly
the non-atomic partial mutation the source performs. -/
theorem c10_set_shadow_color_partial_mutation
    (parse : String → Option ParsedColor) (s : String) (c : Context)
    (hne : c.states ≠ []) (hrej : parse s = none) :
    (set_shadow_color parse c s).2 = some (.Generic "Invalid color") ∧
    (set_shadow_color parse c s).1.topState.shadow_color =
      c.topState.shadow_color ∧
    get_shadow_color (set_shadow_color parse c s).1 = s := by
  match hc : c.states with
  | [] => exact absurd hc hne
  | a :: t =>
    rw [set_shadow_color, hrej]
    refine ⟨rfl, ?_, ?_⟩
    · show (statesSetTop _ c.states).headI.shadow_color = c.states.headI.shadow_color
      rw [hc]
      rfl
    · show (statesSetTop _ c.states).headI.shadow_color_string = s
      rw [hc]
      rfl

/-- Witness for C10 with a parser rejecting everything, on a fresh context. -/
theorem c10_set_shadow_color_partial_mutation_witness :
    get_shadow_color
      (set_shadow_color (fun _ => none) Context.create "not-a-color").1 =
      "not-a-color" :=
  (c10_set_shadow_color_partial_mutation (fun _ => none) "not-a-color"
    Context.create (by simp [Context.create]) rfl).2.2

/-- A context whose fill style is the color (255, 0, 0, 255). -/
def c1Base : Context :=
  { Context.create with
    states := [{ RenderingState.default with
      fill_style := .Color ⟨255, 0, 0, 255⟩ "red" }] }

/-- C1: with fill color (255,0,0,255), the source resolves the paint alpha to
round((255/255) * (globalAlpha/255)) in 0..1, so globalAlpha = 1 yields
resolved alpha 1 (not the 255 the specification states) and globalAlpha = 0.5
(stored as the u8 127) yields resolved alpha 0 (not 128): the code divides
the color alpha by 255 once too often before rounding. -/
theorem c1_resolved_fill_alpha_diverges :
    ((fill_paint BackendEnv.ok (set_global_alpha c1Base 1).1).toOption.map
      Paint.getAlpha = some 1) ∧
    ((fill_paint BackendEnv.ok (set_global_alpha c1Base 1).1).toOption.map
      Paint.getAlpha ≠ some 255) ∧
    ((fill_paint BackendEnv.ok (set_global_alpha c1Base (1/2)).1).toOption.map
      Paint.getAlpha = some 0) ∧
    ((fill_paint BackendEnv.ok (set_global_alpha c1Base (1/2)).1).toOption.map
      Paint.getAlpha ≠ some 128) := by
  have t255 : (255:ℤ).toNat = 255 := rfl
  have t127 : (127:ℤ).toNat = 127 := rfl
  have t1 : (1:ℤ).toNat = 1 := rfl
  have t0 : (0:ℤ).toNat = 0 := rfl
  have hA : ratToU8 ((1:ℚ) * 255) = 255 := by
    norm_num [ratToU8, t255]
  have hA2 : ratToU8 ((1/2:ℚ) * 255) = 127 := by
    norm_num [ratToU8, t127]
  have hB : resolveColorAlpha 255 255 = 1 := by
    norm_num [resolveColorAlpha, intToU8, f32round, t1]
  have hB2 : resolveColorAlpha 255 127 = 0 := by
    norm_num [resolveColorAlpha, intToU8, f32round, t0]
  have hset1 : (set_global_alpha c1Base 1).1 =
      { c1Base with paint := c1Base.paint.setAlpha 255 } := by
    rw [set_global_alpha, if_neg (by norm_num)]
    rw [hA]
  have hset2 : (set_global_alpha c1Base (1/2)).1 =
      { c1Base with paint := c1Base.paint.setAlpha 127 } := by
    rw [set_global_alpha, if_neg (by norm_num)]
    rw [hA2]
  rw [hset1, hset2]
  refine ⟨?_, ?_, ?_, ?_⟩ <;>
    simp [fill_paint, Context.topState, c1Base, Context.create,
      RenderingState.default, Paint.getAlpha, Paint.setAlpha, Paint.setColor,
      Paint.setStyle, Paint.default, hB, hB2, Except.toOption]

theorem fill_paint_path_irrel (env : BackendEnv) (c : Context) (p : PathM) :
    fill_paint env { c with path := p } = fill_paint env c := rfl

theorem shadow_paint_path_irrel (env : BackendEnv) (c : Context) (p : PathM)
    (paint : Paint) :
    shadow_paint env { c with path := p } paint = shadow_paint env c paint := rfl

/-- The shadow pass surface round: on a freshly saved surface with invertible
transform, the offset algorithm yields the transform (T * translate) * T with
the original transform still on the save stack. -/
theorem shadow_pass_surface (s : SurfaceM) (dx dy : ℚ)
    (h : s.transform.det ≠ 0) :
    apply_shadow_offset_matrix s.save dx dy =
      .ok { transform :=
              (s.transform.comp (AffineM.translate dx dy)).comp s.transform,
            saved := s.transform :: s.saved } := by
  have h2 : (s.save).transform.det ≠ 0 := h
  have hok := apply_shadow_offset_matrix_ok s.save dx dy h2
  simpa [SurfaceM.save] using hok

theorem SurfaceM.restore_mk_cons (X t : AffineM) (rest : List AffineM) :
    SurfaceM.restore { transform := X, saved := t :: rest } =
      { transform := t, saved := rest } := rfl

/-- A uniform scale-by-2 transform. -/
def scale2 : AffineM := ⟨2, 0, 0, 2, 0, 0⟩

/-- Counterexample to C5 as stated: with active transform scale2 and offsets
(3, 0) the algorithm succeeds, but the net transform is not scale2 composed
with an unscaled device-space translation by (3, 0): the three concats leave
(scale2 * translate(3,0)) * scale2, which scales by 4 and translates by 6. -/
theorem c5_net_transform_counterexample :
    ∃ s2, apply_shadow_offset_matrix { transform := scale2, saved := [] } 3 0 =
        .ok s2 ∧
      s2.transform ≠ (AffineM.translate 3 0).comp scale2 := by
  have hdet : scale2.det ≠ 0 := by norm_num [scale2, AffineM.det]
  have hdet2 : ({ transform := scale2, saved := [] } : SurfaceM).transform.det ≠ 0 :=
    hdet
  refine ⟨_, apply_shadow_offset_matrix_ok _ 3 0 hdet2, ?_⟩
  show (scale2.comp (AffineM.translate 3 0)).comp scale2 ≠
    (AffineM.translate 3 0).comp scale2
  simp only [AffineM.comp, AffineM.translate, scale2, ne_eq, AffineM.mk.injEq,
    not_and]
  intro h
  norm_num at h

/-- C5 (amended): for an invertible active transform T saved to the backend
stack, the offset algorithm succeeds, the net transform during the shadow
draw is (T * translate(dx,dy)) * T -- the translation is scaled by T and T is
applied twice, unlike the unscaled translation the claim states, coinciding
with it only in special cases such as T = identity -- and the subsequent
restore returns the surface to its prior transform/clip state before the
primary pass. -/
theorem c5_offset_matrix_amended (s : SurfaceM) (dx dy : ℚ)
    (h : s.transform.det ≠ 0) :
    ∃ s2,
      apply_shadow_offset_matrix s.save dx dy = .ok s2 ∧
      s2.transform =
        (s.transform.comp (AffineM.translate dx dy)).comp s.transform ∧
      s2.restore = s := by
  refine ⟨_, shadow_pass_surface s dx dy h, rfl, rfl⟩

/-- Witness for the amended C5 at T = scale2 and offsets (3, 0). -/
theorem c5_offset_matrix_amended_witness :
    ∃ s2,
      apply_shadow_offset_matrix (SurfaceM.save ⟨scale2, []⟩) 3 0 = .ok s2 ∧
      s2.transform = (scale2.comp (AffineM.translate 3 0)).comp scale2 ∧
      s2.restore = ⟨scale2, []⟩ :=
  c5_offset_matrix_amended ⟨scale2, []⟩ 3 0 (by norm_num [scale2, AffineM.det])

/-- C4 (amended): provided the active transform is invertible, every draw
operation with an active shadow paint issues exactly two backend draw calls,
the shadow pass first and the primary pass second, and with the shadow
suppressed exactly the one primary call; with a singular active transform and
an active shadow the call instead fails with no draw call at all (see the
counterexample). -/
theorem c4_two_pass_amended :
    (∀ (env : BackendEnv) (c : Context) (x y w h : ℚ) (fp sp : Paint),
      fill_paint env c = .ok fp → c.surface.transform.det ≠ 0 →
      shadow_paint env c fp = some sp →
      (fill_rect env c x y w h).2 =
        ([DrawCall.rect x y w h sp
            ((c.surface.transform.comp
              (AffineM.translate c.topState.shadow_offset_x
                c.topState.shadow_offset_y)).comp c.surface.transform),
          DrawCall.rect x y w h fp c.surface.transform], none)) ∧
    (∀ (env : BackendEnv) (c : Context) (x y w h : ℚ) (fp : Paint),
      fill_paint env c = .ok fp → shadow_paint env c fp = none →
      (fill_rect env c x y w h).2 =
        ([DrawCall.rect x y w h fp c.surface.transform], none)) ∧
    (∀ (env : BackendEnv) (c : Context) (x y w h : ℚ) (fp sp : Paint),
      stroke_paint env c = .ok fp → c.surface.transform.det ≠ 0 →
      shadow_paint env c fp = some sp →
      (stroke_rect env c x y w h).2 =
        ([DrawCall.rect x y w h sp
            ((c.surface.transform.comp
              (AffineM.translate c.topState.shadow_offset_x
                c.topState.shadow_offset_y)).comp c.surface.transform),
          DrawCall.rect x y w h fp c.surface.transform], none)) ∧
    (∀ (env : BackendEnv) (c : Context) (x y w h : ℚ) (fp : Paint),
      stroke_paint env c = .ok fp → shadow_paint env c fp = none →
      (stroke_rect env c x y w h).2 =
        ([DrawCall.rect x y w h fp c.surface.transform], none)) ∧
    (∀ (env : BackendEnv) (c : Context) (rule : FillType) (fp sp : Paint),
      fill_paint env c = .ok fp → c.surface.transform.det ≠ 0 →
      shadow_paint env c fp = some sp →
      (fill env c none rule).2 =
        ([DrawCall.path { c.path with fillType := rule } sp
            ((c.surface.transform.comp
              (AffineM.translate c.topState.shadow_offset_x
                c.topState.shadow_offset_y)).comp c.surface.transform),
          DrawCall.path { c.path with fillType := rule } fp
            c.surface.transform], none)) ∧
    (∀ (env : BackendEnv) (c : Context) (rule : FillType) (fp : Paint),
      fill_paint env c = .ok fp → shadow_paint env c fp = none →
      (fill env c none rule).2 =
        ([DrawCall.path { c.path with fillType := rule } fp
            c.surface.transform], none)) ∧
    (∀ (env : BackendEnv) (c : Context) (pathArg : Option PathM) (fp sp : Paint),
      stroke_paint env c = .ok fp → c.surface.transform.det ≠ 0 →
      shadow_paint env c fp = some sp →
      (stroke env c pathArg).2 =
        ([DrawCall.path (pathArg.getD c.path) sp
            ((c.surface.transform.comp
              (AffineM.translate c.topState.shadow_offset_x
                c.topState.shadow_offset_y)).comp c.surface.transform),
          DrawCall.path (pathArg.getD c.path) fp c.surface.transform], none)) ∧
    (∀ (env : BackendEnv) (c : Context) (pathArg : Option PathM) (fp : Paint),
      stroke_paint env c = .ok fp → shadow_paint env c fp = none →
      (stroke env c pathArg).2 =
        ([DrawCall.path (pathArg.getD c.path) fp c.surface.transform],
          none)) := by
  refine ⟨?_, ?_, ?_, ?_, ?_, ?_, ?_, ?_⟩
  · intro env c x y w h fp sp hfp hdet hsp
    simp only [fill_rect, hfp, hsp, shadow_pass_surface c.surface _ _ hdet,
      SurfaceM.restore_mk_cons]
  · intro env c x y w h fp hfp hsp
    simp only [fill_rect, hfp, hsp]
  · intro env c x y w h fp sp hfp hdet hsp
    simp only [stroke_rect, hfp, hsp, shadow_pass_surface c.surface _ _ hdet,
      SurfaceM.restore_mk_cons]
  · intro env c x y w h fp hfp hsp
    simp only [stroke_rect, hfp, hsp]
  · intro env c rule fp sp hfp hdet hsp
    simp only [fill, fill_paint_path_irrel, shadow_paint_path_irrel, hfp, hsp,
      Context.topState, shadow_pass_surface c.surface _ _ hdet,
      SurfaceM.restore_mk_cons]
  · intro env c rule fp hfp hsp
    simp only [fill, fill_paint_path_irrel, shadow_paint_path_irrel, hfp, hsp]
  · intro env c pathArg fp sp hfp hdet hsp
    simp only [stroke, hfp, hsp, shadow_pass_surface c.surface _ _ hdet,
      SurfaceM.restore_mk_cons]
  · intro env c pathArg fp hfp hsp
    simp only [stroke, hfp, hsp]

theorem resolveColorAlpha_opaque : resolveColorAlpha 255 255 = 1 := by
  have t1 : (1:ℤ).toNat = 1 := rfl
  norm_num [resolveColorAlpha, intToU8, f32round, t1]

/-- A context with a singular (all-zero) active transform, color fill style,
opaque shadow color, blur 5, offsets (3, 3), and global alpha 255. -/
def c4BadCtx : Context :=
  { Context.create with
    surface := { transform := ⟨0, 0, 0, 0, 0, 0⟩, saved := [] }
    states := [{ RenderingState.default with
      fill_style := .Color ⟨255, 0, 0, 255⟩ "red"
      shadow_color := ⟨0, 0, 0, 255⟩
      shadow_blur := 5
      shadow_offset_x := 3
      shadow_offset_y := 3 }]
    paint := Paint.default.setAlpha 255 }

/-- The paint fill_paint resolves for c4BadCtx. -/
def c4BadFillPaint : Paint :=
  ((Paint.default.setAlpha 255).setStyle .Fill).setColor 255 0 0 1

/-- Counterexample to C4 as stated: on c4BadCtx every shadow gating condition
holds and shadow_paint is active, yet fillRect issues zero draw calls -- the
singular transform makes the offset-matrix step fail -- instead of the two
the claim requires. -/
theorem c4_singular_transform_counterexample :
    (∃ fp sp, fill_paint BackendEnv.ok c4BadCtx = .ok fp ∧
      shadow_paint BackendEnv.ok c4BadCtx fp = some sp) ∧
    (fill_rect BackendEnv.ok c4BadCtx 0 0 10 10).2 =
      ([], some (.Generic "Invert matrix failed")) := by
  have hfp : fill_paint BackendEnv.ok c4BadCtx = .ok c4BadFillPaint := by
    simp [fill_paint, Context.topState, c4BadCtx, Context.create,
      RenderingState.default, Paint.getAlpha, Paint.setAlpha, Paint.setColor,
      Paint.setStyle, Paint.default, resolveColorAlpha_opaque, c4BadFillPaint]
  have hsp : shadow_paint BackendEnv.ok c4BadCtx c4BadFillPaint =
      some ((c4BadFillPaint.setAlpha 255).setMaskFilter ⟨5 / 2⟩) := by
    simp [shadow_paint, composedShadowAlpha, makeBlur, BackendEnv.ok,
      Context.topState, c4BadCtx, c4BadFillPaint, Paint.getAlpha,
      Paint.setAlpha, Paint.setColor, Paint.setStyle, Paint.default,
      Paint.setMaskFilter, RenderingState.default, Context.create]
  have herr : apply_shadow_offset_matrix (SurfaceM.save c4BadCtx.surface)
      c4BadCtx.topState.shadow_offset_x c4BadCtx.topState.shadow_offset_y =
      .error (.Generic "Invert matrix failed") := by
    apply apply_shadow_offset_matrix_err
    show AffineM.det ⟨0, 0, 0, 0, 0, 0⟩ = 0
    norm_num [AffineM.det]
  refine ⟨⟨c4BadFillPaint, _, hfp, hsp⟩, ?_⟩
  simp only [fill_rect, hfp, hsp, herr]

/-- A context like c4BadCtx but with the identity transform and a gradient
fill style. -/
def c4GoodCtx : Context :=
  { Context.create with
    states := [{ RenderingState.default with
      fill_style := .Gradient 0
      shadow_color := ⟨0, 0, 0, 255⟩
      shadow_blur := 5
      shadow_offset_x := 3
      shadow_offset_y := 3 }]
    paint := Paint.default.setAlpha 255 }

/-- The paint fill_paint resolves for c4GoodCtx. -/
def c4GoodFillPaint : Paint :=
  (((Paint.default.setAlpha 255).setStyle .Fill).setColor 0 0 0 255).setShader
    ⟨AffineM.idm⟩

/-- The shadow paint for c4GoodCtx: the wrapped composed alpha is
255 * 255 mod 256 = 1. -/
def c4GoodShadowPaint : Paint :=
  (c4GoodFillPaint.setAlpha 1).setMaskFilter ⟨5 / 2⟩

/-- Witness for the amended C4: on c4GoodCtx a fillRect issues exactly the
shadow call followed by the primary call. -/
theorem c4_two_pass_amended_witness :
    (fill_rect BackendEnv.ok c4GoodCtx 0 0 10 10).2 =
      ([DrawCall.rect 0 0 10 10 c4GoodShadowPaint
          ((c4GoodCtx.surface.transform.comp (AffineM.translate
            c4GoodCtx.topState.shadow_offset_x
            c4GoodCtx.topState.shadow_offset_y)).comp
            c4GoodCtx.surface.transform),
        DrawCall.rect 0 0 10 10 c4GoodFillPaint c4GoodCtx.surface.transform],
        none) :=
  c4_two_pass_amended.1 BackendEnv.ok c4GoodCtx 0 0 10 10 c4GoodFillPaint
    c4GoodShadowPaint rfl
    (by simp [c4GoodCtx, Context.create, AffineM.det, AffineM.idm])
    (by simp [shadow_paint, composedShadowAlpha, makeBlur, BackendEnv.ok,
      Context.topState, c4GoodCtx, c4GoodFillPaint, Paint.getAlpha,
      Paint.setAlpha, Paint.setColor, Paint.setShader, Paint.setStyle,
      Paint.default, Paint.setMaskFilter, c4GoodShadowPaint,
      RenderingState.default, Context.create])

/-- C9: draw calls are atomic with respect to paint-resolution failure: when
fill_paint or stroke_paint fails, the corresponding draw operation surfaces
that very error and issues no backend draw call, neither shadow nor primary;
and a nonempty dash list with failing dash-effect construction is such a
failure for both resolvers. -/
theorem c9_draw_atomicity :
    (∀ (env : BackendEnv) (c : Context) (x y w h : ℚ) (e : CanvasError),
      fill_paint env c = .error e →
      fill_rect env c x y w h = (c, [], some e)) ∧
    (∀ (env : BackendEnv) (c : Context) (rule : FillType) (e : CanvasError),
      fill_paint env c = .error e →
      (fill env c none rule).2 = ([], some e)) ∧
    (∀ (env : BackendEnv) (c : Context) (x y w h : ℚ) (e : CanvasError),
      stroke_paint env c = .error e →
      stroke_rect env c x y w h = (c, [], some e)) ∧
    (∀ (env : BackendEnv) (c : Context) (pathArg : Option PathM)
        (e : CanvasError),
      stroke_paint env c = .error e → stroke env c pathArg = (c, [], some e)) ∧
    (∀ (env : BackendEnv) (c : Context),
      c.topState.line_dash_list ≠ [] → env.dashOk = false →
      (∃ e, fill_paint env c = .error e) ∧
      ∃ e, stroke_paint env c = .error e) := by
  refine ⟨?_, ?_, ?_, ?_, ?_⟩
  · intro env c x y w h e h
    simp only [fill_rect, h]
  · intro env c rule e h
    simp only [fill, fill_paint_path_irrel, h]
  · intro env c x y w h e h
    simp only [stroke_rect, h]
  · intro env c pathArg e h
    simp only [stroke, h]
  · intro env c hdl hdash
    have hlen : c.topState.line_dash_list.length ≠ 0 := by
      simpa using hdl
    have hnd : newDashPath env c.topState.line_dash_list
        c.topState.line_dash_offset = none := by
      simp [newDashPath, hdash]
    constructor
    · cases hfs : c.topState.fill_style with
      | Color col src =>
        exact ⟨.Generic "Make line dash path effect failed",
          by simp [fill_paint, hfs, hlen, hnd]⟩
      | Gradient g =>
        cases hsh : env.shaderOk with
        | true =>
          exact ⟨.Generic "Make line dash path effect failed",
            by simp [fill_paint, hfs, hlen, hnd, getShader, hsh]⟩
        | false =>
          exact ⟨.Generic "Create shader failed",
            by simp [fill_paint, hfs, hlen, hnd, getShader, hsh]⟩
      | ImagePattern p =>
        exact ⟨.Generic "Make line dash path effect failed",
          by simp [fill_paint, hfs, hlen, hnd]⟩
    · cases hfs : c.topState.stroke_style with
      | Color col src =>
        exact ⟨.Generic "Make line dash path effect failed",
          by simp [stroke_paint, hfs, hdl, hnd]⟩
      | Gradient g =>
        cases hsh : env.shaderOk with
        | true =>
          exact ⟨.Generic "Make line dash path effect failed",
            by simp [stroke_paint, hfs, hdl, hnd, getShader, hsh]⟩
        | false =>
          exact ⟨.Generic "Create shader failed",
            by simp [stroke_paint, hfs, hdl, hnd, getShader, hsh]⟩
      | ImagePattern p =>
        exact ⟨.Generic "Make line dash path effect failed",
          by simp [stroke_paint, hfs, hdl, hnd]⟩

/-- A backend environment whose dash-effect construction fails. -/
def c9Env : BackendEnv := ⟨false, true, true⟩

/-- A context with an active two-entry dash list. -/
def c9Ctx : Context :=
  { Context.create with
    states := [{ RenderingState.default with line_dash_list := [1, 2] }] }

/-- Witness for C9: with a nonempty dash list and failing dash-effect
construction, fillRect surfaces the dash error and draws nothing. -/
theorem c9_draw_atomicity_witness :
    fill_rect c9Env c9Ctx 0 0 10 10 =
      (c9Ctx, [], some (.Generic "Make line dash path effect failed")) :=
  c9_draw_atomicity.1 c9Env c9Ctx 0 0 10 10
    (.Generic "Make line dash path effect failed") rfl
